import Mathlib

/-
Verification of the Browser State Synchronization & Element Location Engine
(`browser_use/browser/context.py`) against its natural-language specification.

The Python source is shallowly embedded: pure helpers become Lean functions,
the event handlers of the network-settle detector become explicit state
transformers, methods that raise become `Except`-valued functions, and the
browser engine (Playwright) is abstracted as oracles/effect outcomes supplied
as parameters.  Machine integers do not occur (Python ints are unbounded);
event-loop timestamps are modelled as `Nat`.

Python string primitives are modelled on `List Char` so that every
definition evaluates inside the kernel; each helper is documented with the
Python expression it stands for.
-/

namespace BrowserUse

/-! ### String helpers mirroring the Python primitives used by the source -/

/-- Python `sub in s` (substring containment). -/
def strContains (s sub : String) : Bool :=
  go s.toList
where
  go : List Char → Bool
    | [] => sub.toList.isEmpty
    | l@(_ :: rest) => (sub.toList.isPrefixOf l) || go rest

/-- Python `s.lower()` (ASCII case folding suffices for the source's use). -/
def pyLower (s : String) : String :=
  String.mk (s.toList.map Char.toLower)

/-- Python `s.endswith(suffix)`. -/
def pyEndsWith (s suffix : String) : Bool :=
  suffix.toList.isSuffixOf s.toList

/-- Python `s.startswith(prefix)`. -/
def pyStartsWith (s pre : String) : Bool :=
  pre.toList.isPrefixOf s.toList

/-- Python `domain.split(':')[0]` composed with the guard `if ':' in domain:`
(when no colon is present, `split` returns the whole string, so the
composition is the prefix before the first colon). -/
def stripPort (domain : String) : String :=
  String.mk (domain.toList.takeWhile (fun c => !(c == ':')))

/-- Python `s.split(sep)` for a one-character separator: split at every
occurrence, keeping empty pieces. -/
def splitBy (p : Char → Bool) : List Char → List (List Char)
  | [] => [[]]
  | x :: rest =>
    match splitBy p rest with
    | [] => [[]]
    | h :: t => if p x then [] :: h :: t else (x :: h) :: t

/-- Python whitespace (`\s` over the source's ASCII inputs). -/
def pyIsSpace (c : Char) : Bool :=
  c == ' ' || c == Char.ofNat 9 || c == Char.ofNat 10 ||
    c == Char.ofNat 13 || c == Char.ofNat 12 || c == Char.ofNat 11

/-- Python `s.strip(chars)`: drop characters of the set from both ends. -/
def pyStripChars (cs : List Char) (l : List Char) : List Char :=
  ((l.dropWhile (fun c => cs.contains c)).reverse.dropWhile
    (fun c => cs.contains c)).reverse

/-- Python `s.strip()` (whitespace on both ends). -/
def pyStrip (s : String) : String :=
  String.mk (((s.toList.dropWhile pyIsSpace).reverse.dropWhile pyIsSpace).reverse)

/-- Python `s.replace(c, repl)` for a one-character pattern. -/
def pyReplaceChar (c : Char) (repl : List Char) (l : List Char) : List Char :=
  l.foldr (fun x acc => if x == c then repl ++ acc else x :: acc) []

/-- Python `s.isdigit()` for ASCII strings. -/
def pyIsDigit (s : String) : Bool :=
  !s.toList.isEmpty && s.toList.all Char.isDigit

/-- Decimal value of an all-digit string (the `int(idx)` step, which the
source only reaches after an `isdigit` check). -/
def digitsToNat (l : List Char) : Nat :=
  l.foldl (fun n c => 10 * n + (c.toNat - 48)) 0

/-- Python `sep.join(parts)`. -/
def joinWith (sep : String) : List String → String
  | [] => ""
  | [x] => x
  | x :: y :: rest => x ++ sep ++ joinWith sep (y :: rest)

/-- Python `re.sub(r'\s+', ' ', value)`: every maximal whitespace run
becomes a single space. -/
def collapseWsList : List Char → List Char
  | [] => []
  | [c] => if pyIsSpace c then [' '] else [c]
  | c :: d :: rest =>
    if pyIsSpace c && pyIsSpace d then collapseWsList (d :: rest)
    else (if pyIsSpace c then ' ' else c) :: collapseWsList (d :: rest)

/-! ### Allowlist Guard (`BrowserContext._is_url_allowed`) -/

/-- A URL as seen by `_is_url_allowed`: the raw string plus the result of the
stdlib `urllib.parse.urlparse(url).netloc` (outside src/); `netloc = none`
models the (rare) case where parsing raises, which the source catches. -/
structure Url where
  raw : String
  netloc : Option String
deriving DecidableEq

/-- `BrowserContext._is_url_allowed` (context.py:500-522): no configured
allowlist (Python falsy: `None` or the empty list) means every URL is
allowed; otherwise lowercase the netloc, strip the port, and test equality
with, or dotted-suffix match against, each lowercased allowed domain.  A
parse failure is caught and yields `false`. -/
def is_url_allowed (allowed_domains : Option (List String)) (url : Url) : Bool :=
  match allowed_domains with
  | none => true
  | some allowed =>
    if allowed.isEmpty then true
    else
      match url.netloc with
      | none => false
      | some netloc =>
        let domain := stripPort (pyLower netloc)
        allowed.any (fun allowed_domain =>
          domain == pyLower allowed_domain ||
            pyEndsWith domain ("." ++ pyLower allowed_domain))

/-- C1: `_is_url_allowed` returns true when the allowlist is absent or empty;
otherwise, for a URL that parses, it returns true iff the lowercased,
port-stripped host equals some allowed entry (lowercased) or ends with
"." followed by that entry; and when URL parsing fails it returns false
without raising (the embedding is a total function). -/
theorem is_url_allowed_correct (A : List String) (hA : A ≠ []) (u : Url)
    (netloc : String) :
    is_url_allowed none u = true
    ∧ is_url_allowed (some []) u = true
    ∧ is_url_allowed (some A) { raw := u.raw, netloc := none } = false
    ∧ (is_url_allowed (some A) { raw := u.raw, netloc := some netloc } = true ↔
        ∃ a ∈ A, stripPort (pyLower netloc) = pyLower a ∨
          pyEndsWith (stripPort (pyLower netloc)) ("." ++ pyLower a) = true) := by
  refine ⟨rfl, rfl, ?_, ?_⟩
  · simp [is_url_allowed, List.isEmpty_iff, hA]
  · simp [is_url_allowed, List.isEmpty_iff, hA, List.any_eq_true]

/-- Instantiation of `is_url_allowed_correct`: with allowlist
`["Example.com"]`, an unparseable URL is denied and
`SUB.example.com:8080` is allowed (subdomain match, case-insensitive,
port stripped). -/
theorem is_url_allowed_correct_witness :
    is_url_allowed (some ["Example.com"]) { raw := "x", netloc := none } = false
    ∧ is_url_allowed (some ["Example.com"])
        { raw := "https://SUB.example.com:8080/p",
          netloc := some "SUB.example.com:8080" } = true := by
  have h := is_url_allowed_correct ["Example.com"] (by decide)
    { raw := "x", netloc := none } ("SUB.example.com:8080")
  refine ⟨h.2.2.1, ?_⟩
  refine (h.2.2.2).mpr ?_
  exact ⟨"Example.com", by decide, Or.inr (by decide)⟩

/-! ### Network Settle Detector (`_wait_for_stable_network` event handlers) -/

/-- A Playwright request as consumed by `on_request`/`on_response`:
resource type, URL, and headers (a dict, modelled as an association list).
`id` carries Python object identity, which the pending set is keyed on. -/
structure PwRequest where
  id : Nat
  resource_type : String
  url : String
  headers : List (String × String)
deriving DecidableEq

/-- A Playwright response as consumed by `on_response`: the originating
request and the response headers.  `content_length` models
`int(response.headers.get('content-length'))` for a present, truthy,
numeric header (`none` = header absent or empty). -/
structure PwResponse where
  request : PwRequest
  headers : List (String × String)
  content_length : Option Nat
deriving DecidableEq

/-- The mutable closure state of `_wait_for_stable_network`:
the pending-request set and the last-activity event-loop timestamp. -/
structure NetworkWaitState where
  pending_requests : List PwRequest
  last_activity : Nat
deriving DecidableEq

/-- Python `set.add` (no duplicates). -/
def setAdd (l : List PwRequest) (r : PwRequest) : List PwRequest :=
  if r ∈ l then l else r :: l

/-- context.py:306-313. -/
def RELEVANT_RESOURCE_TYPES : List String :=
  ["document", "stylesheet", "image", "font", "script", "iframe"]

/-- context.py:315-322. -/
def RELEVANT_CONTENT_TYPES : List String :=
  ["text/html", "text/css", "application/javascript", "image/", "font/",
   "application/json"]

/-- context.py:325-362. -/
def IGNORED_URL_PATTERNS : List String :=
  ["analytics", "tracking", "telemetry", "beacon", "metrics",
   "doubleclick", "adsystem", "adserver", "advertising",
   "facebook.com/plugins", "platform.twitter", "linkedin.com/embed",
   "livechat", "zendesk", "intercom", "crisp.chat", "hotjar",
   "push-notifications", "onesignal", "pushwoosh",
   "heartbeat", "ping", "alive",
   "webrtc", "rtmp://", "wss://",
   "cloudfront.net", "fastly.net"]

/-- Python `dict.get(k)`. -/
def headerGet (hs : List (String × String)) (k : String) : Option String :=
  hs.lookup k

/-- `on_request` (context.py:364-398): filter by resource type, the
real-time resource set, URL patterns, data/blob schemes and
prefetch/audio/video headers; otherwise add to the pending set and stamp
`last_activity := now`. -/
def on_request (st : NetworkWaitState) (request : PwRequest) (now : Nat) :
    NetworkWaitState :=
  if !(RELEVANT_RESOURCE_TYPES.contains request.resource_type) then st
  else if (["websocket", "media", "eventsource", "manifest", "other"] :
      List String).contains request.resource_type then st
  else if IGNORED_URL_PATTERNS.any
      (fun pattern => strContains (pyLower request.url) pattern) then st
  else if pyStartsWith (pyLower request.url) ("data:") ||
      pyStartsWith (pyLower request.url) ("blob:") then st
  else if headerGet request.headers ("purpose") == some ("prefetch") ||
      (match headerGet request.headers ("sec-fetch-dest") with
       | some d => (["video", "audio"] : List String).contains d
       | none => false) then st
  else
    { pending_requests := setAdd st.pending_requests request
      last_activity := now }

/-- `response.headers.get('content-type', '').lower()`. -/
def responseContentType (response : PwResponse) : String :=
  pyLower ((headerGet response.headers ("content-type")).getD (""))

/-- context.py:410-422: content types treated as streaming/real-time. -/
def STREAMING_CONTENT_MARKERS : List String :=
  ["streaming", "video", "audio", "webm", "mp4", "event-stream",
   "websocket", "protobuf"]

/-- `content_length and int(content_length) > 5 * 1024 * 1024`. -/
def responseOversized (response : PwResponse) : Bool :=
  match response.content_length with
  | some n => 5 * 1024 * 1024 < n
  | none => false

/-- `on_response` (context.py:401-439): ignore responses whose request is
not pending; remove (without stamping `last_activity`) when the content
type indicates streaming/real-time data, when it is outside the accepted
set, or when the declared length exceeds 5 MiB; otherwise remove and
stamp `last_activity := now`. -/
def on_response (st : NetworkWaitState) (response : PwResponse) (now : Nat) :
    NetworkWaitState :=
  if response.request ∉ st.pending_requests then st
  else if STREAMING_CONTENT_MARKERS.any
      (fun t => strContains (responseContentType response) t) then
    { st with pending_requests := st.pending_requests.erase response.request }
  else if !(RELEVANT_CONTENT_TYPES.any
      (fun ct => strContains (responseContentType response) ct)) then
    { st with pending_requests := st.pending_requests.erase response.request }
  else if responseOversized response then
    { st with pending_requests := st.pending_requests.erase response.request }
  else
    { pending_requests := st.pending_requests.erase response.request
      last_activity := now }

/-- A response that `on_response` removes on one of its filter paths
(streaming/real-time content type, content type outside the accepted set,
or declared length over 5 MiB). -/
def responseFiltered (response : PwResponse) : Bool :=
  STREAMING_CONTENT_MARKERS.any
      (fun t => strContains (responseContentType response) t)
  || !(RELEVANT_CONTENT_TYPES.any
      (fun ct => strContains (responseContentType response) ct))
  || responseOversized response

/-- A pending document request and a streaming response to it: the claim
that every membership change stamps `last_activity` fails here. -/
def c2Request : PwRequest :=
  { id := 0, resource_type := "document", url := "https://site.example/movie",
    headers := [] }

/-- The refuting response: content type `video/mp4`. -/
def c2Response : PwResponse :=
  { request := c2Request, headers := [("content-type", "video/mp4")],
    content_length := none }

/-- C2 fails as stated: with `c2Request` pending and `last_activity = 0`,
the `video/mp4` response at time 7 removes the request from the pending
set (a membership change) yet leaves `last_activity` at 0, not 7. -/
theorem on_response_counterexample :
    (on_response { pending_requests := [c2Request], last_activity := 0 }
        c2Response 7).pending_requests
      ≠ [c2Request]
    ∧ (on_response { pending_requests := [c2Request], last_activity := 0 }
        c2Response 7).last_activity ≠ 7 := by
  constructor
  · decide
  · decide

/-- When the response's request is pending and no content filter fires,
`on_response` takes its final path: remove and stamp `last_activity`. -/
theorem on_response_final_path (st : NetworkWaitState) (response : PwResponse)
    (now : Nat) (hmem : response.request ∈ st.pending_requests)
    (hf : responseFiltered response = false) :
    on_response st response now =
      { pending_requests := st.pending_requests.erase response.request
        last_activity := now } := by
  have h1 : ¬ response.request ∉ st.pending_requests := by simp [hmem]
  simp only [responseFiltered, Bool.or_eq_false_iff] at hf
  simp [on_response, h1, hf.1.1, hf.1.2, hf.2]

/-- When the response's request is pending and a content filter fires,
`on_response` removes the request from the pending set and leaves
`last_activity` unchanged — whichever of the three filter paths
(streaming content type, irrelevant content type, oversized) is taken. -/
theorem on_response_filtered_path (st : NetworkWaitState)
    (response : PwResponse) (now : Nat)
    (hmem : response.request ∈ st.pending_requests)
    (hf : responseFiltered response = true) :
    on_response st response now =
      { pending_requests := st.pending_requests.erase response.request
        last_activity := st.last_activity } := by
  simp only [responseFiltered, Bool.or_eq_true] at hf
  unfold on_response
  split_ifs with h1 h2 h3
  · rfl
  · rfl
  · rfl
  · exfalso
    rcases hf with (hs | hr) | ho
    · exact h1 hs
    · exact h2 hr
    · exact h3 ho

/-- C2 (amended): every addition by the request handler stamps
`last_activity := now`; the response handler stamps `last_activity := now`
exactly when the response passes the content filters — for a pending
request, an unfiltered response is removed with `last_activity := now`,
while a filtered-out response (streaming/irrelevant content type,
oversized) is removed with `last_activity` left unchanged; any change of
`last_activity` at all sets it to `now`, and a membership change without a
stamp can only come from a filtered response. -/
theorem network_last_activity_amended (st : NetworkWaitState)
    (request : PwRequest) (response : PwResponse) (now : Nat) :
    ((on_request st request now).pending_requests ≠ st.pending_requests →
      (on_request st request now).last_activity = now)
    ∧ ((on_response st response now).last_activity ≠ st.last_activity →
      (on_response st response now).last_activity = now)
    ∧ ((on_response st response now).pending_requests ≠ st.pending_requests →
      (on_response st response now).last_activity = now
        ∨ responseFiltered response = true)
    ∧ (response.request ∈ st.pending_requests →
      responseFiltered response = false →
      on_response st response now =
        { pending_requests := st.pending_requests.erase response.request
          last_activity := now })
    ∧ (response.request ∈ st.pending_requests →
      responseFiltered response = true →
      on_response st response now =
        { pending_requests := st.pending_requests.erase response.request
          last_activity := st.last_activity }) := by
  refine ⟨?_, ?_, ?_, ?_, ?_⟩
  · unfold on_request
    split_ifs <;> intro h <;> simp_all
  · unfold on_response
    split_ifs <;> intro h <;> simp_all
  · intro h
    by_cases hf : responseFiltered response = true
    · exact Or.inr hf
    · have hf' : responseFiltered response = false := by
        simpa using hf
      by_cases hmem : response.request ∈ st.pending_requests
      · exact Or.inl (by rw [on_response_final_path st response now hmem hf'])
      · exact absurd (by simp [on_response, hmem]) h
  · intro hmem hfilter
    exact on_response_final_path st response now hmem hfilter
  · intro hmem hfilter
    exact on_response_filtered_path st response now hmem hfilter

/-- Instantiation of `network_last_activity_amended`: a fresh document
request at time 3 is added and stamps `last_activity = 3`; a plain
`text/html` response to it at time 9 removes it and stamps
`last_activity = 9`; a streaming `video/mp4` response to it at time 9
removes it with `last_activity` left at 3. -/
theorem network_last_activity_amended_witness :
    (on_request { pending_requests := [], last_activity := 0 }
        c2Request 3).last_activity = 3
    ∧ on_response { pending_requests := [c2Request], last_activity := 3 }
        { request := c2Request, headers := [("content-type", "text/html")],
          content_length := some 120 } 9
      = { pending_requests := [], last_activity := 9 }
    ∧ on_response { pending_requests := [c2Request], last_activity := 3 }
        c2Response 9
      = { pending_requests := [], last_activity := 3 } := by
  refine ⟨?_, ?_, ?_⟩
  · exact (network_last_activity_amended
      { pending_requests := [], last_activity := 0 } c2Request
      { request := c2Request, headers := [], content_length := none } 3).1
      (by decide)
  · have h := (network_last_activity_amended
      { pending_requests := [c2Request], last_activity := 3 } c2Request
      { request := c2Request, headers := [("content-type", "text/html")],
        content_length := some 120 } 9).2.2.2.1
      (by decide) (by decide)
    rw [h]
    decide
  · have h := (network_last_activity_amended
      { pending_requests := [c2Request], last_activity := 3 } c2Request
      c2Response 9).2.2.2.2
      (by decide) (by decide)
    rw [h]
    decide

/-! ### Navigation operations and tab lifecycle -/

/-- The error taxonomy raised by the source: `BrowserError` is the generic
type, `URLNotAllowedError` the dedicated navigation-denied subtype
(declared in `browser_use/browser/views.py`), and `engineError` stands for
exceptions coming out of the Playwright engine (e.g. `IndexError`). -/
inductive BrowserExc where
  | browserError (msg : String)
  | urlNotAllowedError (msg : String)
  | engineError (msg : String)
deriving DecidableEq

/-- Engine calls issued by the navigation operations, recorded in order. -/
inductive EngineAction where
  | goto (url : String)
  | waitForLoadState
  | goBack
  | newPage
  | bringToFront
deriving DecidableEq

/-- A Playwright page as the tab operations see it. -/
structure PwPage where
  id : Nat
  url : Url
deriving DecidableEq

/-- The part of `BrowserSession` the tab operations touch: the context's
page list and the current-page pointer. -/
structure SessionState where
  pages : List PwPage
  current_page : PwPage
deriving DecidableEq

/-- `_check_and_handle_navigation` (context.py:524-532): if the page's URL
is not allowed, attempt `go_back` (best-effort, its own failures are
absorbed inside `go_back`) and then raise the dedicated
`URLNotAllowedError`. -/
def check_and_handle_navigation (allowed_domains : Option (List String))
    (pageUrl : Url) : List EngineAction × Option BrowserExc :=
  if !(is_url_allowed allowed_domains pageUrl) then
    ([EngineAction.goBack],
      some (BrowserExc.urlNotAllowedError
        ("Navigation to non-allowed URL: " ++ pageUrl.raw)))
  else ([], none)

/-- `navigate_to` (context.py:534-541): a disallowed URL raises the generic
`BrowserError` before any engine call; otherwise goto + wait. -/
def navigate_to (allowed_domains : Option (List String)) (url : Url) :
    List EngineAction × Option BrowserExc :=
  if !(is_url_allowed allowed_domains url) then
    ([], some (BrowserExc.browserError
      ("Navigation to non-allowed URL: " ++ url.raw)))
  else
    ([EngineAction.goto url.raw, EngineAction.waitForLoadState], none)

/-- `create_new_tab` (context.py:987-1002): a disallowed URL raises the
generic `BrowserError` before the tab is created; otherwise create the
page, make it current, and navigate when a URL was given (`none` models
Python-falsy `url`). -/
def create_new_tab (allowed_domains : Option (List String))
    (url : Option Url) : List EngineAction × Option BrowserExc :=
  match url with
  | some u =>
    if !(is_url_allowed allowed_domains u) then
      ([], some (BrowserExc.browserError
        ("Cannot create new tab with non-allowed URL: " ++ u.raw)))
    else
      ([EngineAction.newPage, EngineAction.waitForLoadState,
        EngineAction.goto u.raw, EngineAction.waitForLoadState], none)
  | none => ([EngineAction.newPage, EngineAction.waitForLoadState], none)

/-- Python `pages[page_id]` on a list: negative indices count from the end;
an index out of range on the negative side raises `IndexError` (reaching
the engine-level exception constructor).  The source has already ruled out
`page_id >= len(pages)` when this runs. -/
def pyListGet (pages : List PwPage) (i : Int) : Except BrowserExc PwPage :=
  let j : Int := if i < 0 then i + pages.length else i
  if j < 0 then Except.error (BrowserExc.engineError ("list index out of range"))
  else
    match pages.get? j.toNat with
    | some p => Except.ok p
    | none => Except.error (BrowserExc.engineError ("list index out of range"))

/-- `switch_to_tab` (context.py:965-985): `page_id >= len(pages)` raises
the generic `BrowserError`; a tab whose URL is not allowed raises the
generic `BrowserError`; otherwise the current-page pointer moves to the
selected page (followed by `bring_to_front` and a load wait). -/
def switch_to_tab (allowed_domains : Option (List String))
    (s : SessionState) (page_id : Int) : Except BrowserExc SessionState :=
  if (s.pages.length : Int) ≤ page_id then
    Except.error (BrowserExc.browserError
      ("No tab found with page_id: " ++ toString page_id))
  else
    match pyListGet s.pages page_id with
    | Except.error e => Except.error e
    | Except.ok page =>
      if !(is_url_allowed allowed_domains page.url) then
        Except.error (BrowserExc.browserError
          ("Cannot switch to tab with non-allowed URL: " ++ page.url.raw))
      else Except.ok { s with current_page := page }

/-- `close_current_tab` (context.py:569-579): close the current page
(Playwright removes it from `context.pages`), then, if any page remains,
`switch_to_tab(0)`. -/
def close_current_tab (allowed_domains : Option (List String))
    (s : SessionState) : Except BrowserExc SessionState :=
  let remaining := s.pages.erase s.current_page
  if remaining.isEmpty then
    Except.ok { pages := remaining, current_page := s.current_page }
  else switch_to_tab allowed_domains { pages := remaining, current_page := s.current_page } 0

/-- True exactly on the dedicated navigation-denied error. -/
def isUrlNotAllowedExc : Option BrowserExc → Bool
  | some (BrowserExc.urlNotAllowedError _) => true
  | _ => false

/-- The end-to-end spec scenario URL: `https://evil.com` against allowlist
`["example.com"]`. -/
def evilUrl : Url :=
  { raw := "https://evil.com", netloc := some "evil.com" }

/-- C3 fails as stated: `navigate_to` on an allowlist violation does raise,
but it raises the generic `BrowserError`, not the dedicated
navigation-not-allowed error type. -/
theorem navigate_to_error_type_counterexample :
    (navigate_to (some ["example.com"]) evilUrl).2
      = some (BrowserExc.browserError
          ("Navigation to non-allowed URL: https://evil.com"))
    ∧ isUrlNotAllowedExc (navigate_to (some ["example.com"]) evilUrl).2 = false := by
  constructor
  · decide
  · decide

/-- C3 (amended): every navigation-causing operation checks the allowlist
and a violation raises with no navigation performed — but `navigate_to`,
`create_new_tab` and `switch_to_tab` raise the generic `BrowserError`,
while only the post-navigation check `_check_and_handle_navigation` (used
after clicks and during settle waits) attempts a best-effort go-back and
then raises the dedicated `URLNotAllowedError`. -/
theorem navigation_allowlist_amended (allowed_domains : Option (List String))
    (u : Url) (s : SessionState) (i : Int) (page : PwPage)
    (hu : is_url_allowed allowed_domains u = false) :
    navigate_to allowed_domains u
      = ([], some (BrowserExc.browserError
          ("Navigation to non-allowed URL: " ++ u.raw)))
    ∧ create_new_tab allowed_domains (some u)
      = ([], some (BrowserExc.browserError
          ("Cannot create new tab with non-allowed URL: " ++ u.raw)))
    ∧ check_and_handle_navigation allowed_domains u
      = ([EngineAction.goBack],
          some (BrowserExc.urlNotAllowedError
            ("Navigation to non-allowed URL: " ++ u.raw)))
    ∧ (i < (s.pages.length : Int) → pyListGet s.pages i = Except.ok page →
        page.url = u →
        switch_to_tab allowed_domains s i
          = Except.error (BrowserExc.browserError
              ("Cannot switch to tab with non-allowed URL: " ++ u.raw))) := by
  refine ⟨?_, ?_, ?_, ?_⟩
  · simp [navigate_to, hu]
  · simp [create_new_tab, hu]
  · simp [check_and_handle_navigation, hu]
  · intro hi hget hurl
    have hlen : ¬ (s.pages.length : Int) ≤ i := by omega
    simp [switch_to_tab, hlen, hget, hurl, hu]

/-- Instantiation of `navigation_allowlist_amended` at the spec's
end-to-end scenario: allowlist `["example.com"]`, target
`https://evil.com`, a one-tab session showing that page. -/
theorem navigation_allowlist_amended_witness :
    navigate_to (some ["example.com"]) evilUrl
      = ([], some (BrowserExc.browserError
          ("Navigation to non-allowed URL: https://evil.com")))
    ∧ check_and_handle_navigation (some ["example.com"]) evilUrl
      = ([EngineAction.goBack],
          some (BrowserExc.urlNotAllowedError
            ("Navigation to non-allowed URL: https://evil.com")))
    ∧ switch_to_tab (some ["example.com"])
        { pages := [{ id := 0, url := evilUrl }],
          current_page := { id := 0, url := evilUrl } } 0
      = Except.error (BrowserExc.browserError
          ("Cannot switch to tab with non-allowed URL: https://evil.com")) := by
  have h := navigation_allowlist_amended (some ["example.com"]) evilUrl
    { pages := [{ id := 0, url := evilUrl }],
      current_page := { id := 0, url := evilUrl } } 0
    { id := 0, url := evilUrl } (by decide)
  exact ⟨h.1, h.2.2.1, h.2.2.2 (by decide) rfl rfl⟩

/-- Pages for the close-current-tab scenario. -/
def tabA : PwPage := { id := 0, url := { raw := "https://a.example", netloc := some "a.example" } }

/-- Second remaining page. -/
def tabB : PwPage := { id := 1, url := { raw := "https://b.example", netloc := some "b.example" } }

/-- The page being closed. -/
def tabC : PwPage := { id := 2, url := { raw := "https://c.example", netloc := some "c.example" } }

/-- C6 fails as stated: closing current tab `tabC` out of
`[tabA, tabB, tabC]` leaves `[tabA, tabB]` and switches to `tabA` — the
first remaining page (`switch_to_tab(0)`), not the last remaining page
`tabB`. -/
theorem close_current_tab_counterexample :
    close_current_tab none { pages := [tabA, tabB, tabC], current_page := tabC }
      = Except.ok { pages := [tabA, tabB], current_page := tabA }
    ∧ [tabA, tabB].getLast? = some tabB
    ∧ tabA ≠ tabB := by
  refine ⟨rfl, by decide, by decide⟩

/-- C6 (amended): after `close_current_tab` closes the current page, if at
least one page remains, the session switches to the **first** remaining
page (index 0), provided that page's URL passes the allowlist. -/
theorem close_current_tab_amended (allowed_domains : Option (List String))
    (s : SessionState) (q : PwPage) (rest : List PwPage)
    (herase : s.pages.erase s.current_page = q :: rest)
    (hallow : is_url_allowed allowed_domains q.url = true) :
    close_current_tab allowed_domains s
      = Except.ok { pages := q :: rest, current_page := q } := by
  have hlen : ¬ ((q :: rest).length : Int) ≤ 0 := by
    simp only [List.length_cons]
    omega
  simp [close_current_tab, herase, switch_to_tab, hlen, pyListGet, hallow]

/-- Instantiation of `close_current_tab_amended`: closing `tabC` in the
three-tab session yields current page `tabA`. -/
theorem close_current_tab_amended_witness :
    close_current_tab none { pages := [tabA, tabB, tabC], current_page := tabC }
      = Except.ok { pages := [tabA, tabB], current_page := tabA } :=
  close_current_tab_amended none
    { pages := [tabA, tabB, tabC], current_page := tabC } tabA [tabB]
    (by decide) (by decide)

/-! ### Session lifecycle teardown (`BrowserContext.close`) -/

/-- Outcomes of the engine effects `close` runs, each a Boolean "this call
raised" flag: `context.cookies()`/file write inside `save_cookies`,
`context.tracing.stop`, and `context.close`. -/
structure TeardownEnv where
  save_cookies_fails : Bool
  tracing_stop_fails : Bool
  context_close_fails : Bool
deriving DecidableEq

/-- The part of `BrowserContext` that `close` touches: the optional session
plus the config fields it consults. -/
structure BrowserCtxState where
  session : Option SessionState
  cookies_file : Option String
  trace_path : Option String
deriving DecidableEq

/-- `save_cookies` (context.py:1019-1034): runs only when a session and a
cookies file are present, and wraps its whole body in try/except — a
failure is logged and absorbed, never raised. -/
def save_cookies (env : TeardownEnv) (st : BrowserCtxState) :
    Option BrowserExc :=
  if st.session.isSome && st.cookies_file.isSome then
    match (if env.save_cookies_fails
        then Except.error ("cookie write failed")
        else Except.ok ()) with
    | Except.ok _ => none
    | Except.error _ => none
  else none

/-- `close` (context.py:153-175): an already-`None` session returns at once;
otherwise `save_cookies` (self-absorbing), then `tracing.stop` when a trace
path is configured (try/except, absorbed), then `context.close` (try/except,
absorbed); the `finally` block sets the session to `None` on every path.
The second component is the exception propagated to the caller. -/
def close (env : TeardownEnv) (st : BrowserCtxState) :
    BrowserCtxState × Option BrowserExc :=
  match st.session with
  | none => ({ st with session := none }, none)
  | some _ =>
    let save_step : Option BrowserExc := save_cookies env st
    let tracing_step : Option BrowserExc :=
      if st.trace_path.isSome then
        match (if env.tracing_stop_fails
            then Except.error ("tracing stop failed")
            else Except.ok ()) with
        | Except.ok _ => none
        | Except.error _ => none
      else none
    let close_step : Option BrowserExc :=
      match (if env.context_close_fails
          then Except.error ("context close failed")
          else Except.ok ()) with
      | Except.ok _ => none
      | Except.error _ => none
    ({ st with session := none }, save_step <|> tracing_step <|> close_step)

/-- C7: `close` never raises — cookie-saving, tracing-stop and
context-close failures are all absorbed — and it always leaves
`session = None`; calling it twice in a row is therefore error-free and
leaves the session closed after each call, whatever effects fail. -/
theorem close_idempotent_absorbing (env env2 : TeardownEnv)
    (st : BrowserCtxState) :
    (close env st).2 = none
    ∧ (close env st).1.session = none
    ∧ (close env2 (close env st).1).2 = none
    ∧ (close env2 (close env st).1).1.session = none := by
  have key : ∀ (e : TeardownEnv) (s : BrowserCtxState),
      (close e s).2 = none ∧ (close e s).1.session = none := by
    intro e s
    cases hs : s.session with
    | none => simp [close, hs]
    | some sess =>
      cases hc : e.save_cookies_fails <;>
        cases ht : e.tracing_stop_fails <;>
          cases hx : e.context_close_fails <;>
            simp [close, save_cookies, hs, hc, ht, hx]
  exact ⟨(key env st).1, (key env st).2, (key env2 _).1, (key env2 _).2⟩

/-! ### DOM element nodes and the Selector Synthesizer -/

/-- `DOMElementNode` (from `browser_use/dom/views.py`, outside src/) as the
selector synthesizer and element locator consume it: tag name, attribute
dict (insertion-ordered association list), XPath-like structural path,
optional ephemeral highlight index, and the back-reference to the parent.
The children list and visibility flag play no role in any claim and are
omitted. -/
inductive DOMElementNode : Type where
  | mk : String → List (String × String) → String → Option Int →
      Option DOMElementNode → DOMElementNode

/-- Tag name accessor. -/
def DOMElementNode.tag_name : DOMElementNode → String
  | .mk t _ _ _ _ => t

/-- Attribute-dict accessor. -/
def DOMElementNode.attributes : DOMElementNode → List (String × String)
  | .mk _ a _ _ _ => a

/-- XPath accessor. -/
def DOMElementNode.xpath : DOMElementNode → String
  | .mk _ _ x _ _ => x

/-- Highlight-index accessor. -/
def DOMElementNode.highlight_index : DOMElementNode → Option Int
  | .mk _ _ _ h _ => h

/-- Parent back-reference accessor. -/
def DOMElementNode.parent : DOMElementNode → Option DOMElementNode
  | .mk _ _ _ _ p => p

/-- One `idx` step of the positional-predicate translation loop
(context.py:734-748): digits become `:nth-of-type(n)` (the source computes
`int(idx) - 1` and prints `index + 1`, i.e. the digit value itself),
`last()` becomes `:last-of-type`, and a `position()` predicate containing
`>1` becomes `:nth-of-type(n+2)`; anything else leaves the base alone. -/
def xpathIndexFragment (base : String) (idx : String) : String :=
  if pyIsDigit idx then
    base ++ ":nth-of-type(" ++ toString (digitsToNat idx.toList) ++ ")"
  else if idx == "last()" then base ++ ":last-of-type"
  else if strContains idx ("position()") then
    if strContains idx (">1") then base ++ ":nth-of-type(n+2)" else base
  else base

/-- One path segment (context.py:722-752): empty segments are skipped;
a segment with `[` splits into base and bracket predicates
(`index_part.split(']')[:-1]`, each stripped of `[`/`]`). -/
def processXpathPart (part : String) : Option String :=
  if part == "" then none
  else if part.toList.contains '[' then
    let base_part := String.mk (part.toList.takeWhile (fun c => !(c == '[')))
    let index_part := String.mk (part.toList.dropWhile (fun c => !(c == '[')))
    let indices := ((splitBy (fun c => c == ']') index_part.toList).dropLast).map
      (fun p => String.mk (pyStripChars ['[', ']'] p))
    some (indices.foldl xpathIndexFragment base_part)
  else some part

/-- `_convert_simple_xpath_to_css_selector` (context.py:710-755): strip
leading slashes, split on `/`, translate each part, join with `" > "`. -/
def convert_simple_xpath_to_css_selector (xpath : String) : String :=
  if xpath == "" then ""
  else
    let stripped := xpath.toList.dropWhile (fun c => c == '/')
    let parts := (splitBy (fun c => c == '/') stripped).map String.mk
    joinWith (" > ") (parts.filterMap processXpathPart)

/-- The regex `^[a-zA-Z_][a-zA-Z0-9_-]*$` of context.py:774 as a predicate. -/
def valid_class_name (s : String) : Bool :=
  match s.toList with
  | [] => false
  | c :: rest =>
    (c.isAlpha || c == '_') &&
      rest.all (fun d => d.isAlphanum || d == '_' || d == '-')

/-- Class handling (context.py:772-789): when a non-empty `class` attribute
exists, append `"." ++ token` for every whitespace-separated token matching
the strict class-name pattern; other tokens are silently skipped. -/
def classFragments (css : String) (attributes : List (String × String)) :
    String :=
  match attributes.lookup ("class") with
  | none => css
  | some v =>
    if v == "" then css
    else
      (((splitBy pyIsSpace v.toList).map String.mk).filter
          (fun s => !(s == ""))).foldl
        (fun acc class_name =>
          if pyStrip class_name == "" then acc
          else if valid_class_name class_name then acc ++ "." ++ class_name
          else acc) css

/-- context.py:792-821. -/
def SAFE_ATTRIBUTES : List String :=
  ["id", "name", "type", "value", "placeholder",
   "aria-label", "aria-labelledby", "aria-describedby", "role",
   "for", "autocomplete", "required", "readonly",
   "alt", "title", "src",
   "data-testid", "data-id", "data-qa", "data-cy",
   "href", "target"]

/-- The character class of context.py:841: double quote, single quote,
angle brackets, backtick, newline, carriage return, tab. -/
def SPECIAL_VALUE_CHARS : List Char :=
  [Char.ofNat 34, Char.ofNat 39, '<', '>', Char.ofNat 96,
   Char.ofNat 10, Char.ofNat 13, Char.ofNat 9]

/-- Attribute handling (context.py:824-849): skip `class`, blank names and
names outside `SAFE_ATTRIBUTES`; escape `:` in the name; an empty value
gives a presence selector, a value with special characters gives a
substring-match selector over the whitespace-collapsed, quote-escaped
value, and any other value gives an exact-match selector. -/
def attrFragments (css : String) (attributes : List (String × String)) :
    String :=
  attributes.foldl
    (fun acc (kv : String × String) =>
      let attrName := kv.1
      let value := kv.2
      if attrName == "class" then acc
      else if pyStrip attrName == "" then acc
      else if !(SAFE_ATTRIBUTES.contains attrName) then acc
      else
        let safe_attribute :=
          String.mk (pyReplaceChar ':' ['\\', ':'] attrName.toList)
        if value == "" then acc ++ "[" ++ safe_attribute ++ "]"
        else if value.toList.any (fun c => SPECIAL_VALUE_CHARS.contains c) then
          let collapsed_value := pyStrip (String.mk (collapseWsList value.toList))
          let safe_value := String.mk
            (pyReplaceChar (Char.ofNat 34) ['\\', Char.ofNat 34]
              collapsed_value.toList)
          acc ++ "[" ++ safe_attribute ++ "*=\"" ++ safe_value ++ "\"]"
        else acc ++ "[" ++ safe_attribute ++ "=\"" ++ value ++ "\"]")
    css

/-- The body of `_enhanced_css_selector_for_element`'s `try` block
(context.py:767-851): base selector from the XPath, then class fragments,
then attribute fragments. -/
def enhanced_css_selector_for_element (element : DOMElementNode) : String :=
  attrFragments
    (classFragments (convert_simple_xpath_to_css_selector element.xpath)
      element.attributes)
    element.attributes

/-- Python `f-string` rendering of an `Optional[int]`. -/
def pyStrOfOptInt : Option Int → String
  | none => "None"
  | some n => toString n

/-- The `except` fallback of context.py:853-856:
`f"{tag_name}[highlight_index='{element.highlight_index}']"` with `'*'`
for a falsy tag name. -/
def fallback_selector (element : DOMElementNode) : String :=
  (if element.tag_name == "" then "*" else element.tag_name)
    ++ "[highlight_index=\x27" ++ pyStrOfOptInt element.highlight_index
    ++ "\x27]"

/-- `_enhanced_css_selector_for_element` (context.py:757-856) with the
outcome of its `try` body made explicit: the shallow embedding's body is
total, so `bodyOutcome` ranges over every behaviour the Python runtime
could produce — `Except.error` stands for an exception raised anywhere
during synthesis, which the source catches. -/
def enhanced_css_selector_for_element_guarded
    (bodyOutcome : Except String String) (element : DOMElementNode) : String :=
  match bodyOutcome with
  | Except.ok s => s
  | Except.error _ => fallback_selector element

/-- C8: selector synthesis always returns a string and never raises —
`enhanced_css_selector_for_element_guarded` is a total `String`-valued
function over every possible body outcome; when the body raises, the
result is exactly `tag[highlight_index=...]` built from the element's tag
name (or `*` for a falsy one) and its ephemeral highlight index, and when
the body succeeds its value is returned unchanged. -/
theorem enhanced_css_selector_never_raises (element : DOMElementNode)
    (exc : String) (s : String) :
    enhanced_css_selector_for_element_guarded (Except.error exc) element
      = (if element.tag_name == "" then "*" else element.tag_name)
          ++ "[highlight_index=\x27" ++ pyStrOfOptInt element.highlight_index
          ++ "\x27]"
    ∧ enhanced_css_selector_for_element_guarded (Except.ok s) element = s
    ∧ enhanced_css_selector_for_element_guarded
        (Except.ok (enhanced_css_selector_for_element element)) element
      = enhanced_css_selector_for_element element :=
  ⟨rfl, rfl, rfl⟩

/-- C9 example: an `input` with classes `a b` and id `foo`. -/
def c9IdElem : DOMElementNode :=
  DOMElementNode.mk ("input") [("class", "a b"), ("id", "foo")] ("input")
    (some 1) none

/-- C9 example: a `div` whose class attribute holds one valid token and one
token starting with a digit (invalid per the strict pattern). -/
def c9BadClassElem : DOMElementNode :=
  DOMElementNode.mk ("div") [("class", "valid 2bad")] ("div") (some 2) none

/-- C9: the synthesized selector for an element with id `foo` contains the
attribute-style fragment `[id="foo"]` (and indeed no `#` shorthand is
involved); for class `a b` it contains `.a.b`; and an invalid class token
is silently omitted — the synthesis still returns (totally) and the token
is absent from the result. -/
theorem selector_synthesis_examples :
    strContains (enhanced_css_selector_for_element c9IdElem)
        ("[id=\"foo\"]") = true
    ∧ strContains (enhanced_css_selector_for_element c9IdElem) (".a.b") = true
    ∧ enhanced_css_selector_for_element c9IdElem = "input.a.b[id=\"foo\"]"
    ∧ enhanced_css_selector_for_element c9BadClassElem = "div.valid"
    ∧ strContains (enhanced_css_selector_for_element c9BadClassElem)
        ("2bad") = false := by
  refine ⟨by decide, by decide, by decide, by decide, by decide⟩

/-! ### Element Locator (`get_locate_element`) -/

/-- The ancestor list as `get_locate_element` collects it
(context.py:862-867): walk `parent` links upward, nearest ancestor first. -/
def DOMElementNode.ancestorChain : DOMElementNode → List DOMElementNode
  | .mk _ _ _ _ none => []
  | .mk _ _ _ _ (some p) => p :: p.ancestorChain

/-- The same ancestors in root-first document order, defined directly (the
spec's formulation); the source obtains this by reversing the upward walk. -/
def DOMElementNode.rootFirstAncestors : DOMElementNode → List DOMElementNode
  | .mk _ _ _ _ none => []
  | .mk _ _ _ _ (some p) => p.rootFirstAncestors ++ [p]

/-- Reversing the upward parent walk yields exactly the root-first ancestor
order. -/
theorem ancestorChain_reverse : (e : DOMElementNode) →
    e.ancestorChain.reverse = e.rootFirstAncestors
  | .mk _ _ _ _ none => by
    simp [DOMElementNode.ancestorChain, DOMElementNode.rootFirstAncestors]
  | .mk _ _ _ _ (some p) => by
    have ih := ancestorChain_reverse p
    simp [DOMElementNode.ancestorChain, DOMElementNode.rootFirstAncestors, ih]

/-- A Playwright frame context: the page itself, or a `frame_locator`
chained onto an enclosing context by an iframe selector.  `frame_locator`
is lazy — building the chain performs no resolution, which only happens at
the final `element_handle()`/`query_selector` call. -/
inductive FrameCtx where
  | page
  | frameLocator (parent : FrameCtx) (selector : String)
deriving DecidableEq

/-- The iframe selectors of a frame context, outermost first. -/
def frameSelectors : FrameCtx → List String
  | FrameCtx.page => []
  | FrameCtx.frameLocator p s => frameSelectors p ++ [s]

/-- The frame-context chain `get_locate_element` builds
(context.py:869-876): reverse the collected parents, keep the `iframe`
ones, and fold `frame_locator(selector)` over them starting from the page. -/
def locateCtx (element : DOMElementNode) : FrameCtx :=
  ((element.ancestorChain.reverse).filter
      (fun p => p.tag_name == "iframe")).foldl
    (fun ctx parent =>
      FrameCtx.frameLocator ctx (enhanced_css_selector_for_element parent))
    FrameCtx.page

/-- Folding `frame_locator` over a list appends that list's selectors. -/
theorem frameSelectors_foldl (l : List DOMElementNode) (c : FrameCtx) :
    frameSelectors (l.foldl
      (fun ctx parent =>
        FrameCtx.frameLocator ctx (enhanced_css_selector_for_element parent)) c)
      = frameSelectors c ++ l.map enhanced_css_selector_for_element := by
  induction l generalizing c with
  | nil => simp
  | cons x xs ih =>
    simp [List.foldl_cons, ih, frameSelectors, List.append_assoc]

/-- The engine-level resolution capabilities `get_locate_element` invokes,
as oracles: `locator(sel).element_handle()` inside a frame context,
`query_selector` on the page, and `scroll_into_view_if_needed` on a found
handle.  `Except.error` models a raised engine exception (no match within
the timeout, detached frame); handles are opaque `Nat`s. -/
structure LocEngine where
  resolveInFrame : FrameCtx → String → Except String (Option Nat)
  querySelector : String → Except String (Option Nat)
  scrollIntoView : Nat → Except String Unit

/-- `get_locate_element` (context.py:858-891): build the frame chain for
the iframe ancestors, then resolve the target's own selector in the
innermost context; on the page path a found handle is scrolled into view;
every engine exception is caught and surfaced as `none`, and a
`query_selector` miss also yields `none` (the function falls through). -/
def get_locate_element (eng : LocEngine) (element : DOMElementNode) :
    Option Nat :=
  match locateCtx element with
  | FrameCtx.page =>
    match eng.querySelector (enhanced_css_selector_for_element element) with
    | Except.error _ => none
    | Except.ok none => none
    | Except.ok (some h) =>
      match eng.scrollIntoView h with
      | Except.error _ => none
      | Except.ok _ => some h
  | FrameCtx.frameLocator p s =>
    match eng.resolveInFrame (FrameCtx.frameLocator p s)
        (enhanced_css_selector_for_element element) with
    | Except.error _ => none
    | Except.ok h => h

/-- C4: the frame chain `get_locate_element` builds consists of exactly the
synthesized selectors of the element's iframe ancestors in root-first
document order, resolved before the target's own selector; and any
engine-level failure during resolution — including a nested element whose
iframe chain fails to resolve at `element_handle()` — yields `none`
rather than an exception (the embedding returns `Option`, with engine
exceptions modelled by `Except.error` and caught). -/
theorem get_locate_element_order_and_null (eng : LocEngine)
    (element : DOMElementNode) (err : String) :
    frameSelectors (locateCtx element)
      = ((element.rootFirstAncestors).filter
          (fun p => p.tag_name == "iframe")).map
          enhanced_css_selector_for_element
    ∧ (∀ p s, locateCtx element = FrameCtx.frameLocator p s →
        eng.resolveInFrame (locateCtx element)
            (enhanced_css_selector_for_element element) = Except.error err →
        get_locate_element eng element = none)
    ∧ (locateCtx element = FrameCtx.page →
        eng.querySelector (enhanced_css_selector_for_element element)
            = Except.error err →
        get_locate_element eng element = none) := by
  refine ⟨?_, ?_, ?_⟩
  · rw [locateCtx, frameSelectors_foldl, ancestorChain_reverse]
    simp [frameSelectors]
  · intro p s hctx herr
    rw [hctx] at herr
    simp [get_locate_element, hctx, herr]
  · intro hctx herr
    simp [get_locate_element, hctx, herr]

/-- Root document element for the locator scenario. -/
def frameRootElem : DOMElementNode :=
  DOMElementNode.mk ("html") [] ("html") none none

/-- An outer iframe under the root. -/
def outerIframeElem : DOMElementNode :=
  DOMElementNode.mk ("iframe") [] ("html/iframe") none (some frameRootElem)

/-- An inner iframe nested in the outer one. -/
def innerIframeElem : DOMElementNode :=
  DOMElementNode.mk ("iframe") [] ("iframe") none (some outerIframeElem)

/-- A button nested two iframes deep. -/
def nestedButtonElem : DOMElementNode :=
  DOMElementNode.mk ("button") [("id", "go")] ("button") (some 3)
    (some innerIframeElem)

/-- An engine whose frame resolution always raises (detached frame). -/
def failingFrameEngine : LocEngine :=
  { resolveInFrame := fun _ _ => Except.error ("frame detached")
    querySelector := fun _ => Except.ok none
    scrollIntoView := fun _ => Except.ok () }

/-- Instantiation of `get_locate_element_order_and_null`: for the button
nested two iframes deep, with an engine whose frame resolution raises, the
result is `none`, not an exception. -/
theorem get_locate_element_order_and_null_witness :
    get_locate_element failingFrameEngine nestedButtonElem = none :=
  (get_locate_element_order_and_null failingFrameEngine nestedButtonElem
      ("frame detached")).2.1
    (FrameCtx.frameLocator FrameCtx.page
      (enhanced_css_selector_for_element outerIframeElem))
    (enhanced_css_selector_for_element innerIframeElem) rfl rfl

/-! ### State Refresh Orchestrator (`_update_state`) and index helpers -/

/-- `TabInfo` (from `browser_use/browser/views.py`, outside src/). -/
structure TabInfo where
  page_id : Nat
  url : String
  title : String
deriving DecidableEq

/-- `BrowserState` (from `browser_use/browser/views.py`, outside src/):
the immutable snapshot `_update_state` assembles. -/
structure BrowserStateRec where
  element_tree : DOMElementNode
  selector_map : List (Nat × DOMElementNode)
  url : String
  title : String
  tabs : List TabInfo
  screenshot : Option String
  pixels_above : Int
  pixels_below : Int

/-- `_get_initial_state` (context.py:1086-1102): an empty snapshot with a
bare `root` element, empty selector map and, when a page is at hand, its
URL (scroll offsets default to 0 in the `BrowserState` declaration). -/
def get_initial_state (pageUrl : Option String) : BrowserStateRec :=
  { element_tree := DOMElementNode.mk ("root") [] ("") none none
    selector_map := []
    url := pageUrl.getD ("")
    title := ""
    tabs := []
    screenshot := none
    pixels_above := 0
    pixels_below := 0 }

/-- `_update_state` (context.py:604-655).  Inputs: whether the trivial
script evaluation on the current page succeeded (`pageAlive`), the
context's page list (recovery falls back to `pages[-1]`; an empty list is
fatal), the previously cached `self.current_state` attribute (`none` =
the attribute was never set), and the outcome of the `try` block that
clears highlights, runs the DOM-extraction collaborator, takes the
screenshot, reads scroll info and assembles the snapshot (`Except.error` =
any of those raised). -/
def update_state (pageAlive : Bool) (pages : List PwPage)
    (prev : Option BrowserStateRec)
    (extraction : Except String BrowserStateRec) :
    Except BrowserExc BrowserStateRec :=
  if !pageAlive && pages.isEmpty then
    Except.error (BrowserExc.browserError
      ("Browser closed: no valid pages available"))
  else
    match extraction with
    | Except.ok st => Except.ok st
    | Except.error e =>
      match prev with
      | some st => Except.ok st
      | none => Except.error (BrowserExc.engineError e)

/-- C5: during a state refresh that gets past the liveness check, if DOM
extraction or snapshot assembly fails then the previously cached snapshot
is returned whenever one exists, and the failure propagates only when no
previous snapshot exists (a successful extraction is returned as-is). -/
theorem update_state_degraded (pageAlive : Bool) (pages : List PwPage)
    (prev : Option BrowserStateRec) (err : String)
    (hreach : pageAlive = true ∨ pages ≠ []) :
    (∀ st, prev = some st →
      update_state pageAlive pages prev (Except.error err) = Except.ok st)
    ∧ (prev = none →
      update_state pageAlive pages prev (Except.error err)
        = Except.error (BrowserExc.engineError err))
    ∧ (∀ fresh, update_state pageAlive pages prev (Except.ok fresh)
        = Except.ok fresh) := by
  have hcond : (!pageAlive && pages.isEmpty) = false := by
    rcases hreach with h | h
    · simp [h]
    · simp [List.isEmpty_iff, h]
  refine ⟨?_, ?_, ?_⟩
  · intro st hst
    simp [update_state, hcond, hst]
  · intro hst
    simp [update_state, hcond, hst]
  · intro fresh
    simp [update_state, hcond]

/-- Instantiation of `update_state_degraded`: with an alive page and a
cached initial snapshot, a failed extraction returns the cached snapshot;
with no cached snapshot the failure propagates. -/
theorem update_state_degraded_witness :
    update_state true [] (some (get_initial_state none))
        (Except.error ("extraction failed"))
      = Except.ok (get_initial_state none)
    ∧ update_state true [] none (Except.error ("extraction failed"))
      = Except.error (BrowserExc.engineError ("extraction failed")) := by
  have h1 := update_state_degraded true [] (some (get_initial_state none))
    ("extraction failed") (Or.inl rfl)
  have h2 := update_state_degraded true [] none ("extraction failed")
    (Or.inl rfl)
  exact ⟨h1.1 (get_initial_state none) rfl, h2.2.1 rfl⟩

/-- Python exceptions surfaced by the index helpers: `selector_map[index]`
raises `KeyError` on a missing key. -/
inductive PyExn where
  | keyError (k : Nat)
deriving DecidableEq

/-- Python dict `m[k]`: the value, or a raised `KeyError`. -/
def dict_getitem (m : List (Nat × DOMElementNode)) (k : Nat) :
    Except PyExn DOMElementNode :=
  match m.lookup k with
  | some v => Except.ok v
  | none => Except.error (PyExn.keyError k)

/-- `get_dom_element_by_index` (context.py:1015-1017): despite the
`DOMElementNode | None` annotation, the body is `selector_map[index]`. -/
def get_dom_element_by_index (cached : BrowserStateRec) (index : Nat) :
    Except PyExn DOMElementNode :=
  dict_getitem cached.selector_map index

/-- `get_element_by_index` (context.py:1011-1013):
`get_locate_element(selector_map[index])` — the dict access may raise
`KeyError`; only a located-but-missing element produces `None`. -/
def get_element_by_index (eng : LocEngine) (cached : BrowserStateRec)
    (index : Nat) : Except PyExn (Option Nat) :=
  match dict_getitem cached.selector_map index with
  | Except.error e => Except.error e
  | Except.ok el => Except.ok (get_locate_element eng el)

/-- C10: for any index missing from the cached snapshot's selector map,
both `get_dom_element_by_index` and `get_element_by_index` raise
`KeyError(index)`; in particular neither returns a `None`-style success to
signal an unknown index. -/
theorem element_by_index_keyerror (eng : LocEngine)
    (cached : BrowserStateRec) (index : Nat)
    (h : cached.selector_map.lookup index = none) :
    get_dom_element_by_index cached index
      = Except.error (PyExn.keyError index)
    ∧ get_element_by_index eng cached index
      = Except.error (PyExn.keyError index)
    ∧ (∀ el, get_dom_element_by_index cached index ≠ Except.ok el)
    ∧ get_element_by_index eng cached index ≠ Except.ok none := by
  refine ⟨?_, ?_, ?_, ?_⟩ <;>
    simp [get_dom_element_by_index, get_element_by_index, dict_getitem, h]

/-- A cached snapshot whose selector map holds only index 1. -/
def c10State : BrowserStateRec :=
  { get_initial_state none with selector_map := [(1, c9IdElem)] }

/-- Instantiation of `element_by_index_keyerror`: index 2 is absent from
`c10State`, so both helpers raise `KeyError(2)`. -/
theorem element_by_index_keyerror_witness :
    get_dom_element_by_index c10State 2 = Except.error (PyExn.keyError 2)
    ∧ get_element_by_index failingFrameEngine c10State 2
      = Except.error (PyExn.keyError 2) := by
  have h := element_by_index_keyerror failingFrameEngine c10State 2 rfl
  exact ⟨h.1, h.2.1⟩

end BrowserUse
